import Mathlib

/-!
Shallow embedding of `src/Hackathon_Phas1.py`: the NAT2 genotype reference
table `NAT2_GENOTYPES`, the resolver `NAT2Analyzer.analyze_genotype`, and the
recommendation lookup `NAT2Analyzer.get_dosing_recommendation`.

Modelling choices:
- A Python dict of observed alleles (`mutations` argument) is a partial map
  `Nat → Option Char`; `mutations.get(pos, '.')` is `dictGet`.
- Each record's six-key `mutations` dict always holds exactly the six fixed
  positions, so it is a structure with six `Char` fields; `valueAt` is the
  direct indexing `data['mutations'][pos]` (only ever applied at the six
  positions).
- Python float frequency literals (3.3, 0.8, 15.0, 24.2, 15.8, 0.0) are data
  that is never computed with, only compared; they are embedded as the exact
  rationals `mkRat 33 10`, `mkRat 8 10`, `mkRat 150 10`, `mkRat 242 10`,
  `mkRat 158 10`, `0` (all these Python decimal literals are exact in this
  reading, so equality of the embedded values coincides with equality of the
  floats).
- The dict `NAT2_GENOTYPES` is iterated in insertion order, so it is a list
  of (label, record) pairs in source order, and the `for`/`return` loop of
  `analyze_genotype` is `List.find?`.
- `recommendations.get(acetylator_type, fallback)` is `List.lookup` with
  `Option.getD`.
-/

/-- Expected allele symbol at each of the six NAT2 marker positions
282, 341, 481, 590, 803, 857 (the per-record `mutations` dict). -/
structure ExpectedAlleles where
  p282 : Char
  p341 : Char
  p481 : Char
  p590 : Char
  p803 : Char
  p857 : Char
  deriving DecidableEq, Repr

/-- Direct dict indexing `data['mutations'][pos]`; the source only ever
indexes at the six defined positions, so the final catch-all is unreachable
in every use below. -/
def ExpectedAlleles.valueAt (e : ExpectedAlleles) : Nat → Char
  | 282 => e.p282
  | 341 => e.p341
  | 481 => e.p481
  | 590 => e.p590
  | 803 => e.p803
  | 857 => e.p857
  | _ => '.'

/-- One value of the `NAT2_GENOTYPES` dict: acetylator type, population
frequency and expected mutations. -/
structure GenotypeData where
  acetylator_type : String
  frequency : ℚ
  mutations : ExpectedAlleles
  deriving DecidableEq, Repr

/-- Value of the dict entry `'NAT2*4/*4'` (lines 9-20 of the source). -/
def gd44 : GenotypeData :=
  { acetylator_type := "Fast", frequency := mkRat 33 10,
    mutations := ⟨'.', '.', '.', '.', '.', '.'⟩ }

/-- Value of the dict entry `'NAT2*4/*14'` (lines 21-32 of the source). -/
def gd414 : GenotypeData :=
  { acetylator_type := "Intermediate", frequency := mkRat 8 10,
    mutations := ⟨'.', '.', '.', '.', 'A', 'G'⟩ }

/-- Value of the dict entry `'NAT2*4/*5'` (lines 33-44 of the source). -/
def gd45 : GenotypeData :=
  { acetylator_type := "Intermediate", frequency := mkRat 150 10,
    mutations := ⟨'.', 'C', 'T', '.', 'G', '.'⟩ }

/-- Value of the dict entry `'NAT2*5/*5'` (lines 45-56 of the source); its
`mutations` dict is identical, position by position, to that of
`'NAT2*4/*5'`. -/
def gd55 : GenotypeData :=
  { acetylator_type := "Slow", frequency := mkRat 242 10,
    mutations := ⟨'.', 'C', 'T', '.', 'G', '.'⟩ }

/-- Value of the dict entry `'NAT2*6/*6'` (lines 57-68 of the source). -/
def gd66 : GenotypeData :=
  { acetylator_type := "Slow", frequency := mkRat 158 10,
    mutations := ⟨'T', '.', '.', 'A', '.', '.'⟩ }

/-- The module-level constant `NAT2_GENOTYPES`, as a (label, data) list in
the dict's insertion order. -/
def NAT2_GENOTYPES : List (String × GenotypeData) :=
  [ ("NAT2*4/*4", gd44),
    ("NAT2*4/*14", gd414),
    ("NAT2*4/*5", gd45),
    ("NAT2*5/*5", gd55),
    ("NAT2*6/*6", gd66) ]

/-- The instance attribute `self.mutation_positions` of `NAT2Analyzer`. -/
def mutation_positions : List Nat := [282, 341, 481, 590, 803, 857]

/-- Python `mutations.get(pos, '.')`: look a position up in the caller's
observed dict, defaulting an absent key to the wild-type symbol. -/
def dictGet (m : Nat → Option Char) (pos : Nat) : Char :=
  (m pos).getD '.'

/-- The `all(...)` generator of line 78: the observed dict matches a record
when the observed value (absent defaulting to '.') equals the record's
expected value at every one of the six positions. -/
def matchesRecord (mutations : Nat → Option Char) (data : GenotypeData) : Bool :=
  mutation_positions.all (fun pos => dictGet mutations pos == data.mutations.valueAt pos)

/-- `NAT2Analyzer.analyze_genotype`: scan `NAT2_GENOTYPES` in insertion
order, return the first matching record's (label, acetylator type,
frequency), else the sentinel ("Unknown", "Unknown", 0). -/
def analyze_genotype (mutations : Nat → Option Char) : String × String × ℚ :=
  match NAT2_GENOTYPES.find? (fun gd => matchesRecord mutations gd.2) with
  | some (genotype, data) => (genotype, data.acetylator_type, data.frequency)
  | none => ("Unknown", "Unknown", 0)

/-- One value of the `recommendations` dict inside
`get_dosing_recommendation`. -/
structure Recommendation where
  dose : String
  risk : String
  monitoring : String
  details : String
  deriving DecidableEq, Repr

/-- The `recommendations` dict literal of lines 83-102, in insertion
order. -/
def recommendations : List (String × Recommendation) :=
  [ ("Fast",
     { dose := "5-6 mg/kg/day",
       risk := "Lower risk of adverse effects, monitor for treatment efficacy",
       monitoring := "Regular liver function tests every 3 months",
       details := "May require higher doses to maintain therapeutic levels" }),
    ("Intermediate",
     { dose := "4-5 mg/kg/day",
       risk := "Moderate risk of adverse effects",
       monitoring := "Liver function tests every 2 months",
       details := "Standard dosing usually appropriate" }),
    ("Slow",
     { dose := "2.5-4 mg/kg/day",
       risk := "Higher risk of drug-induced liver injury",
       monitoring := "Monthly liver function tests",
       details := "Requires reduced dosing to prevent toxicity" }) ]

/-- The default record of the `recommendations.get(...)` call on lines
103-108. -/
def fallbackRecommendation : Recommendation :=
  { dose := "Consult specialist",
    risk := "Unknown",
    monitoring := "Frequent monitoring required",
    details := "Individual assessment needed" }

/-- `NAT2Analyzer.get_dosing_recommendation`: dict lookup with a fixed
default record. -/
def get_dosing_recommendation (acetylator_type : String) : Recommendation :=
  (recommendations.lookup acetylator_type).getD fallbackRecommendation

/-- Observed dict holding exactly a record's six expected entries: the
caller input "exactly equal to R's expected six-position allele tuple". -/
def toObserved (e : ExpectedAlleles) : Nat → Option Char :=
  fun pos => if pos ∈ mutation_positions then some (e.valueAt pos) else none

/-- Helper: `List.find?` returns the element at the first index satisfying
the predicate. -/
theorem find_of_first {α : Type} (p : α → Bool) (l : List α) (i : Nat)
    (h : i < l.length) (hp : p (l.get ⟨i, h⟩) = true)
    (hmin : ∀ j (hj : j < i), p (l.get ⟨j, Nat.lt_trans hj h⟩) = false) :
    l.find? p = some (l.get ⟨i, h⟩) := by
  induction l generalizing i with
  | nil => exact absurd h (Nat.not_lt_zero i)
  | cons a t ih =>
    cases i with
    | zero =>
      have ha : p a = true := hp
      simp [List.find?_cons, ha]
    | succ n =>
      have ha : p a = false := hmin 0 (Nat.succ_pos n)
      simp only [List.find?_cons, ha, List.get]
      exact ih n (Nat.lt_of_succ_lt_succ h) hp
        (fun j hj => hmin (j + 1) (Nat.succ_lt_succ hj))

/-- Helper: `List.all` only looks at the predicate's values on members. -/
theorem all_congr_of_mem {α : Type} (p q : α → Bool) (l : List α)
    (h : ∀ x ∈ l, p x = q x) : l.all p = l.all q := by
  induction l with
  | nil => rfl
  | cons a t ih =>
    simp only [List.all_cons]
    rw [h a (List.mem_cons_self a t),
      ih (fun x hx => h x (List.mem_cons_of_mem a hx))]

/-- Helper: the match test reads nothing of a record but its `mutations`. -/
theorem matchesRecord_congr (m : Nat → Option Char) (d e : GenotypeData)
    (h : d.mutations = e.mutations) : matchesRecord m d = matchesRecord m e := by
  unfold matchesRecord
  rw [h]

/-- C9: the resolver sends observed set 282 '.', 341 '.', 481 '.', 590 '.',
803 'A', 857 'G' to ("NAT2*4/*14", "Intermediate", 0.8), and observed set
282 'T', 341 '.', 481 '.', 590 'A', 803 '.', 857 '.' to
("NAT2*6/*6", "Slow", 15.8). -/
theorem C9_concrete_scenarios :
    analyze_genotype (toObserved ⟨'.', '.', '.', '.', 'A', 'G'⟩)
      = ("NAT2*4/*14", "Intermediate", mkRat 8 10)
  ∧ analyze_genotype (toObserved ⟨'T', '.', '.', 'A', '.', '.'⟩)
      = ("NAT2*6/*6", "Slow", mkRat 158 10) := by
  constructor <;> decide

/-- C1 (counterexample): the claim fails at the record NAT2*5/*5. Feeding
the resolver exactly that record's expected six-position tuple does not
return that record's triple; it returns the triple of NAT2*4/*5. -/
theorem C1_counterexample :
    ("NAT2*5/*5", gd55) ∈ NAT2_GENOTYPES
  ∧ analyze_genotype (toObserved gd55.mutations)
      ≠ ("NAT2*5/*5", gd55.acetylator_type, gd55.frequency)
  ∧ analyze_genotype (toObserved gd55.mutations)
      = ("NAT2*4/*5", "Intermediate", mkRat 150 10) := by
  refine ⟨by decide, by decide, by decide⟩

/-- C1 (amended): for every record R of the genotype table other than
NAT2*5/*5, calling the resolver with an observed mapping exactly equal to
R's expected six-position tuple returns (R.label, R.acetylatorType,
R.populationFrequency). -/
theorem C1_amended (lr : String × GenotypeData) (h : lr ∈ NAT2_GENOTYPES)
    (hl : lr.1 ≠ "NAT2*5/*5") :
    analyze_genotype (toObserved lr.2.mutations)
      = (lr.1, lr.2.acetylator_type, lr.2.frequency) := by
  fin_cases h
  · decide
  · decide
  · decide
  · exact absurd rfl hl
  · decide

/-- Witness for C1 (amended) at the record NAT2*4/*14. -/
theorem C1_amended_witness :
    analyze_genotype (toObserved gd414.mutations)
      = ("NAT2*4/*14", gd414.acetylator_type, gd414.frequency) :=
  C1_amended ("NAT2*4/*14", gd414) (by decide) (by decide)

/-- C3 (counterexample): the claim fails because the records NAT2*4/*5 and
NAT2*5/*5 (indices 2 and 3 of the table) carry distinct labels but agree on
the expected value at all six positions. -/
theorem C3_counterexample :
    (NAT2_GENOTYPES.get ⟨2, by decide⟩).2.mutations
      = (NAT2_GENOTYPES.get ⟨3, by decide⟩).2.mutations
  ∧ (NAT2_GENOTYPES.get ⟨2, by decide⟩).1 ≠ (NAT2_GENOTYPES.get ⟨3, by decide⟩).1 := by
  refine ⟨by decide, by decide⟩

/-- C3 (amended): the expected-allele tuples of the five records are
pairwise distinct except for the single pair NAT2*4/*5 / NAT2*5/*5, which
agree at all six positions. -/
theorem C3_amended (i j : Fin NAT2_GENOTYPES.length) (hij : i ≠ j)
    (heq : (NAT2_GENOTYPES.get i).2.mutations = (NAT2_GENOTYPES.get j).2.mutations) :
    ((NAT2_GENOTYPES.get i).1 = "NAT2*4/*5" ∧ (NAT2_GENOTYPES.get j).1 = "NAT2*5/*5")
  ∨ ((NAT2_GENOTYPES.get i).1 = "NAT2*5/*5" ∧ (NAT2_GENOTYPES.get j).1 = "NAT2*4/*5") := by
  revert hij heq
  revert i j
  decide

/-- Witness for C3 (amended) at the colliding pair (2, 3). -/
theorem C3_amended_witness :
    (⟨2, by decide⟩ : Fin NAT2_GENOTYPES.length) ≠ ⟨3, by decide⟩
  ∧ (((NAT2_GENOTYPES.get ⟨2, by decide⟩).1 = "NAT2*4/*5"
        ∧ (NAT2_GENOTYPES.get ⟨3, by decide⟩).1 = "NAT2*5/*5")
      ∨ ((NAT2_GENOTYPES.get ⟨2, by decide⟩).1 = "NAT2*5/*5"
        ∧ (NAT2_GENOTYPES.get ⟨3, by decide⟩).1 = "NAT2*4/*5")) :=
  ⟨by decide, C3_amended ⟨2, by decide⟩ ⟨3, by decide⟩ (by decide) (by decide)⟩

/-- Helper: the resolver returns the record at index i when it is matched
and no earlier record is. -/
theorem analyze_eq_of_first (m : Nat → Option Char) (i : Nat)
    (h : i < NAT2_GENOTYPES.length)
    (hp : matchesRecord m (NAT2_GENOTYPES.get ⟨i, h⟩).2 = true)
    (hmin : ∀ j (hj : j < i),
      matchesRecord m (NAT2_GENOTYPES.get ⟨j, Nat.lt_trans hj h⟩).2 = false) :
    analyze_genotype m
      = ((NAT2_GENOTYPES.get ⟨i, h⟩).1,
         (NAT2_GENOTYPES.get ⟨i, h⟩).2.acetylator_type,
         (NAT2_GENOTYPES.get ⟨i, h⟩).2.frequency) := by
  unfold analyze_genotype
  rw [find_of_first (fun gd => matchesRecord m gd.2) NAT2_GENOTYPES i h hp hmin]

/-- Helper: the resolver returns the sentinel when no record matches. -/
theorem analyze_eq_of_none (m : Nat → Option Char)
    (h : ∀ gd ∈ NAT2_GENOTYPES, matchesRecord m gd.2 = false) :
    analyze_genotype m = ("Unknown", "Unknown", 0) := by
  unfold analyze_genotype
  rw [List.find?_eq_none.mpr (fun gd hm => by simp [h gd hm])]

/-- C2: the resolver scans the table in its fixed insertion order; for any
observed mapping, if the record at index i matches at all six positions and
no record at an earlier index does, the resolver returns that record's
label, acetylator type and frequency. -/
theorem C2_first_match (m : Nat → Option Char) (i : Nat)
    (h : i < NAT2_GENOTYPES.length)
    (hp : matchesRecord m (NAT2_GENOTYPES.get ⟨i, h⟩).2 = true)
    (hmin : ∀ j (hj : j < i),
      matchesRecord m (NAT2_GENOTYPES.get ⟨j, Nat.lt_trans hj h⟩).2 = false) :
    analyze_genotype m
      = ((NAT2_GENOTYPES.get ⟨i, h⟩).1,
         (NAT2_GENOTYPES.get ⟨i, h⟩).2.acetylator_type,
         (NAT2_GENOTYPES.get ⟨i, h⟩).2.frequency) :=
  analyze_eq_of_first m i h hp hmin

/-- Witness for C2 at the record NAT2*6/*6 (index 4): its exact tuple
matches no earlier record. -/
theorem C2_first_match_witness :
    analyze_genotype (toObserved gd66.mutations)
      = ("NAT2*6/*6", "Slow", mkRat 158 10) :=
  C2_first_match (toObserved gd66.mutations) 4 (by decide) (by decide)
    (fun j hj => by
      interval_cases j
      · exact (by decide : matchesRecord (toObserved gd66.mutations) gd44 = false)
      · exact (by decide : matchesRecord (toObserved gd66.mutations) gd414 = false)
      · exact (by decide : matchesRecord (toObserved gd66.mutations) gd45 = false)
      · exact (by decide : matchesRecord (toObserved gd66.mutations) gd55 = false))

/-- C5: any observed mapping matched by no record of the table resolves to
the sentinel triple ("Unknown", "Unknown", 0.0), returned as an ordinary
value. -/
theorem C5_no_match_sentinel (m : Nat → Option Char)
    (h : ∀ gd ∈ NAT2_GENOTYPES, matchesRecord m gd.2 = false) :
    analyze_genotype m = ("Unknown", "Unknown", 0) :=
  analyze_eq_of_none m h

/-- Witness for C5: the input mapping all six positions to 'T' matches no
record and yields the sentinel. -/
theorem C5_no_match_sentinel_witness :
    analyze_genotype (fun pos => if pos ∈ mutation_positions then some 'T' else none)
      = ("Unknown", "Unknown", 0) :=
  C5_no_match_sentinel _ (by decide)

/-- C6: for every string other than "Fast", "Intermediate" and "Slow", the
recommendation lookup returns the fixed fallback record (dose "Consult
specialist", risk "Unknown", monitoring "Frequent monitoring required",
details "Individual assessment needed"), and never fails. -/
theorem C6_fallback (s : String) (h1 : s ≠ "Fast") (h2 : s ≠ "Intermediate")
    (h3 : s ≠ "Slow") :
    get_dosing_recommendation s = fallbackRecommendation := by
  have e1 : (s == "Fast") = false := beq_eq_false_iff_ne.mpr h1
  have e2 : (s == "Intermediate") = false := beq_eq_false_iff_ne.mpr h2
  have e3 : (s == "Slow") = false := beq_eq_false_iff_ne.mpr h3
  unfold get_dosing_recommendation recommendations
  simp [List.lookup, e1, e2, e3]

/-- Witness for C6 at the string "Unknown". -/
theorem C6_fallback_witness :
    get_dosing_recommendation "Unknown" = fallbackRecommendation :=
  C6_fallback "Unknown" (by decide) (by decide) (by decide)

/-- C7: positions absent from the observed dict are read as '.', so
replacing any observed dict by its total completion (every position mapped
to its defaulted value) leaves the result unchanged; in particular the
empty dict resolves exactly like the dict sending all six positions to '.',
namely to ("NAT2*4/*4", "Fast", 3.3). -/
theorem C7_default_wildtype :
    (∀ m : Nat → Option Char,
        analyze_genotype (fun pos => some (dictGet m pos)) = analyze_genotype m)
  ∧ analyze_genotype (fun _ => none)
      = analyze_genotype (fun pos => if pos ∈ mutation_positions then some '.' else none)
  ∧ analyze_genotype (fun _ => none) = ("NAT2*4/*4", "Fast", mkRat 33 10) :=
  ⟨fun _ => rfl, by decide, by decide⟩

/-- C8: the three recognised acetylator classes map to pairwise distinct
records with non-empty dose, risk, monitoring and details texts; the "Slow"
record's dose is "2.5-4 mg/kg/day" and its risk text contains the phrase
"liver injury" (it reads "Higher risk of drug-induced liver injury"). -/
theorem C8_recommendations :
    ((get_dosing_recommendation "Fast").dose ≠ ""
      ∧ (get_dosing_recommendation "Fast").risk ≠ ""
      ∧ (get_dosing_recommendation "Fast").monitoring ≠ ""
      ∧ (get_dosing_recommendation "Fast").details ≠ "")
  ∧ ((get_dosing_recommendation "Intermediate").dose ≠ ""
      ∧ (get_dosing_recommendation "Intermediate").risk ≠ ""
      ∧ (get_dosing_recommendation "Intermediate").monitoring ≠ ""
      ∧ (get_dosing_recommendation "Intermediate").details ≠ "")
  ∧ ((get_dosing_recommendation "Slow").dose ≠ ""
      ∧ (get_dosing_recommendation "Slow").risk ≠ ""
      ∧ (get_dosing_recommendation "Slow").monitoring ≠ ""
      ∧ (get_dosing_recommendation "Slow").details ≠ "")
  ∧ get_dosing_recommendation "Fast" ≠ get_dosing_recommendation "Intermediate"
  ∧ get_dosing_recommendation "Fast" ≠ get_dosing_recommendation "Slow"
  ∧ get_dosing_recommendation "Intermediate" ≠ get_dosing_recommendation "Slow"
  ∧ (get_dosing_recommendation "Slow").dose = "2.5-4 mg/kg/day"
  ∧ (get_dosing_recommendation "Slow").risk
      = "Higher risk of drug-induced liver injury"
  ∧ ∃ pre post : String,
      (get_dosing_recommendation "Slow").risk = pre ++ "liver injury" ++ post := by
  refine ⟨by decide, by decide, by decide, by decide, by decide, by decide,
    by decide, by decide, "Higher risk of drug-induced ", "", by decide⟩

/-- C10: the resolver's result depends only on the defaulted observed
values at the six defined positions; two observed dicts agreeing there
(whatever they hold elsewhere) resolve identically. -/
theorem C10_only_six_positions (m1 m2 : Nat → Option Char)
    (h : ∀ pos ∈ mutation_positions, dictGet m1 pos = dictGet m2 pos) :
    analyze_genotype m1 = analyze_genotype m2 := by
  have hm : ∀ d : GenotypeData, matchesRecord m1 d = matchesRecord m2 d := by
    intro d
    unfold matchesRecord
    exact all_congr_of_mem _ _ _ (fun pos hp => by rw [h pos hp])
  unfold analyze_genotype
  rw [show (fun gd : String × GenotypeData => matchesRecord m1 gd.2)
        = (fun gd => matchesRecord m2 gd.2) from funext (fun gd => hm gd.2)]

/-- Witness for C10: a dict holding junk at the undefined position 100
resolves like the empty dict. -/
theorem C10_only_six_positions_witness :
    analyze_genotype (fun pos => if pos = 100 then some 'T' else none)
      = analyze_genotype (fun _ => none) :=
  C10_only_six_positions _ _ (by decide)

/-- C4: for every observed mapping the resolver never returns the label
"NAT2*5/*5" nor the frequency 24.2: any input matching that record's
expected tuple is captured first by the identical, earlier record
NAT2*4/*5, so NAT2*5/*5 is unreachable. -/
theorem C4_never_star5_star5 (m : Nat → Option Char) :
    (analyze_genotype m).1 ≠ "NAT2*5/*5"
  ∧ (analyze_genotype m).2.2 ≠ mkRat 242 10 := by
  have h23 : matchesRecord m gd45 = matchesRecord m gd55 :=
    matchesRecord_congr m gd45 gd55 rfl
  cases h0 : matchesRecord m gd44 with
  | true =>
    rw [analyze_eq_of_first m 0 (by decide) h0
      (fun j hj => absurd hj (Nat.not_lt_zero j))]
    exact ⟨by decide, by decide⟩
  | false =>
  cases h1 : matchesRecord m gd414 with
  | true =>
    rw [analyze_eq_of_first m 1 (by decide) h1 (fun j hj => by
      interval_cases j
      · exact h0)]
    exact ⟨by decide, by decide⟩
  | false =>
  cases h2 : matchesRecord m gd45 with
  | true =>
    rw [analyze_eq_of_first m 2 (by decide) h2 (fun j hj => by
      interval_cases j
      · exact h0
      · exact h1)]
    exact ⟨by decide, by decide⟩
  | false =>
  have h3 : matchesRecord m gd55 = false := h23.symm.trans h2
  cases h4 : matchesRecord m gd66 with
  | true =>
    rw [analyze_eq_of_first m 4 (by decide) h4 (fun j hj => by
      interval_cases j
      · exact h0
      · exact h1
      · exact h2
      · exact h3)]
    exact ⟨by decide, by decide⟩
  | false =>
    rw [analyze_eq_of_none m (fun gd hgd => by
      fin_cases hgd
      · exact h0
      · exact h1
      · exact h2
      · exact h3
      · exact h4)]
    exact ⟨by decide, by decide⟩
